import Mathlib

/-!
Verification of the 21cmFAST ionisation / spin-temperature / halo-box core.

Shallow embedding of the C sources:
  * `src/py21cmfast/src/IonisationBox.c` (excursion-set ionisation solver)
  * the spin-temperature shell schedule (`setup_z_edges`)
  * the halo-box gridder (`sum_halos_onto_grid`, `ComputeHaloBox`)

Machine floats are modelled as exact rationals; external collaborators
(cosmology kernels, HMF integrals, recombination-rate fits, RNG draws) are
model parameters, since their source lives outside this repository.
-/

namespace IonModel

/-- Flag options read by the ionisation solver (`FlagOptions` / `UserParams`
fields used in `IonisationBox.c`).  `find_bubble_algorithm` is
`global_params.FIND_BUBBLE_ALGORITHM` (1 = sphere, 2 = center). -/
structure Flags where
  use_halo_field : Bool
  use_mini_halos : Bool
  use_mass_dependent_zeta : Bool
  use_ts_fluct : Bool
  inhomo_reco : Bool
  cell_recomb : Bool
  no_rng : Bool
  find_bubble_algorithm : Nat

/-- The fields of `struct IonBoxConstants` (plus the numeric globals from
`Constants.h`, which is outside this repository sources) that the
ionisation claims depend on.  Externally computed quantities
(`Nion_General` limits, `gamma_prefactor`, ...) enter as values. -/
structure Consts where
  redshift : ℚ
  prev_redshift : ℚ
  photoncons_adjustment_factor : ℚ
  ion_eff_factor : ℚ
  ion_eff_factor_mini : ℚ
  ion_eff_factor_gl : ℚ
  ion_eff_factor_mini_gl : ℚ
  gamma_prefactor : ℚ
  gamma_prefactor_mini : ℚ
  pixel_mass : ℚ
  m_min : ℚ
  f_limit_acg : ℚ
  f_limit_mcg : ℚ
  rhocrit : ℚ
  omb : ℚ
  fract_float_err : ℚ
  tiny : ℚ
  n_poisson : ℚ
  hii_round_err : ℚ

/-- From `set_ionbox_constants`: the redshift step `consts->dz` used by the
recombination update (`IonisationBox.c` lines 145-149). -/
def consts_dz (redshift prev_redshift zprime_step_factor : ℚ) : ℚ :=
  if prev_redshift < 1 then (1 + redshift) * (zprime_step_factor - 1)
  else redshift - prev_redshift

/-- From `set_ionbox_constants`: `consts->fix_mean = !flag_options->USE_HALO_FIELD`
(`IonisationBox.c` line 158). -/
def fix_mean (fl : Flags) : Bool := !fl.use_halo_field

/-- The per-radius inputs consumed by `find_ionised_regions`: the stored
`box->Fcoll`/`Fcoll_MINI` slices produced by `calculate_fcoll_grid`, the
filtered grids of this radius, and the per-cell Poisson draw of the
cell-scale RNG. -/
structure RInputs (n : ℕ) where
  R : ℚ
  R_index : ℕ
  fcoll : Fin n → ℚ
  fcoll_mini : Fin n → ℚ
  deltax_filtered : Fin n → ℚ
  nrec_filtered : Fin n → ℚ
  xe_filtered : Fin n → ℚ
  sfr_filtered : Fin n → ℚ
  poisson_draw : Fin n → ℕ

/-- The previous snapshot ionized box fields read inside the R-loop. -/
structure PrevBox (n : ℕ) where
  z_re : Fin n → ℚ
  dNrec : Fin n → ℚ

/-- The mutable `IonizedBox` fields written by the R-loop. -/
structure Box (n : ℕ) where
  xH : Fin n → ℚ
  Gamma12 : Fin n → ℚ
  MFP : Fin n → ℚ
  z_re : Fin n → ℚ
  mean_f_coll : ℚ
  mean_f_coll_MINI : ℚ

/-- The snapshot-level context of the R-loop: flags, constants, the
unfiltered perturbed density, the previous box, and the sphere-membership
predicate used by the sphere bubble algorithm.  `insphere R c j` is
modelled from the spec (the painting routine `update_in_sphere` lives in
`bubble_helper_progs.c`, outside this repository sources): it decides
whether cell `j` lies within the sphere of radius `R` around cell `c`. -/
structure Model (n : ℕ) where
  flags : Flags
  co : Consts
  perturb_density : Fin n → ℚ
  prev : PrevBox n
  insphere : ℚ → Fin n → Fin n → Bool

/-- The `find_ionised_regions` density selection (lines 931-934): the unfiltered
perturbed density (scaled by the photon-conservation factor) under
`CELL_RECOMB`, else the filtered density of this radius. -/
def cell_dens {n : ℕ} (M : Model n) (ri : RInputs n) (c : Fin n) : ℚ :=
  if M.flags.cell_recomb then M.perturb_density c * M.co.photoncons_adjustment_factor
  else ri.deltax_filtered c

/-- The `find_ionised_regions` collapse fraction of a cell (lines 936-956):
mean-fix multiplication, the halo-field absorber normalisation, and the
`f_limit_acg` floor under mass-dependent zeta. -/
def cell_fcoll {n : ℕ} (M : Model n) (ri : RInputs n) (mft_acg : ℚ) (c : Fin n) : ℚ :=
  let f0 := mft_acg * ri.fcoll c
  let f1 := if M.flags.use_halo_field then
      f0 * (1 / (M.co.rhocrit * M.co.omb * (1 + cell_dens M ri c)))
    else f0
  if M.flags.use_mass_dependent_zeta ∧ f1 < M.co.f_limit_acg then M.co.f_limit_acg else f1

/-- The `find_ionised_regions` minihalo collapse fraction of a cell
(lines 944-956): zero unless `USE_MINI_HALOS && !USE_HALO_FIELD`, then
mean-fixed and floored at `f_limit_mcg` under mass-dependent zeta. -/
def cell_fcoll_mini {n : ℕ} (M : Model n) (ri : RInputs n) (mft_mcg : ℚ) (c : Fin n) : ℚ :=
  let f0 := if M.flags.use_mini_halos ∧ ¬M.flags.use_halo_field then mft_mcg * ri.fcoll_mini c
    else 0
  if M.flags.use_mass_dependent_zeta ∧ M.flags.use_mini_halos ∧ f0 < M.co.f_limit_mcg then
    M.co.f_limit_mcg
  else f0

/-- The `find_ionised_regions` recombination term (lines 958-968): the filtered
(or, under `CELL_RECOMB`, previous-cell) recombination count divided by
`1 + delta`; zero without `INHOMO_RECO`. -/
def cell_rec {n : ℕ} (M : Model n) (ri : RInputs n) (c : Fin n) : ℚ :=
  if M.flags.inhomo_reco then
    (if M.flags.cell_recomb then M.prev.dNrec c else ri.nrec_filtered c) / (1 + cell_dens M ri c)
  else 0

/-- The `find_ionised_regions` x-ray ionised fraction (lines 971-975): the
filtered `x_e` under `USE_TS_FLUCT`, else zero. -/
def cell_xrays {n : ℕ} (M : Model n) (ri : RInputs n) (c : Fin n) : ℚ :=
  if M.flags.use_ts_fluct then ri.xe_filtered c else 0

/-- The ionisation criterion of `find_ionised_regions` (line 988): the
comparison is a strict `>` in the source. -/
def cell_crit {n : ℕ} (M : Model n) (ri : RInputs n) (mft_acg mft_mcg : ℚ) (c : Fin n) : Bool :=
  decide (cell_fcoll M ri mft_acg c * M.co.ion_eff_factor +
      cell_fcoll_mini M ri mft_mcg c * M.co.ion_eff_factor_mini >
    (1 - cell_xrays M ri c) * (1 + cell_rec M ri c))

/-- Modelled from the spec: `update_in_sphere` (in `bubble_helper_progs.c`,
outside this repository sources) sets `xH = 0` on every cell within the
sphere of radius `R` around the crossing cell; it touches no other field. -/
def paint_sphere {n : ℕ} (M : Model n) (R : ℚ) (c : Fin n) (xH : Fin n → ℚ) : Fin n → ℚ :=
  fun j => if M.insphere R c j then 0 else xH j

/-- The halo-count value of the cell-scale RNG step (lines 1028-1034):
`1` under `NO_RNG`, else the Poisson draw. -/
def n_halos_cell (no_rng : Bool) (draw : ℕ) : ℕ :=
  if no_rng then 1 else draw

/-- The cell-scale Poisson rescaling of the collapse fractions in the
non-halo-field branch of the last filter step (lines 1026-1056). -/
def poisson_fcoll_pair {n : ℕ} (M : Model n) (fc0 fcm0 dens : ℚ) (draw : ℕ) : ℚ × ℚ :=
  let ave_M := (fc0 + fcm0) * M.co.pixel_mass * (1 + dens)
  let ave_N := ave_M / M.co.m_min
  let nh : ℕ := n_halos_cell M.flags.no_rng draw
  let fc1 := if fc0 > 1 then 1 else fc0
  let fcm1 := if fcm0 > 1 then 1 else fcm0
  let p :=
    if ave_N < M.co.n_poisson then
      let f := (nh : ℚ) * (ave_M / M.co.n_poisson) / (M.co.pixel_mass * (1 + dens))
      if M.flags.use_mini_halos then
        let fm := f * (fcm1 * M.co.ion_eff_factor) /
          (f * M.co.ion_eff_factor + fcm1 * M.co.ion_eff_factor_mini)
        (f - fm, fm)
      else (f, 0)
    else (fc1, fcm1)
  let p2 := if ave_M < M.co.m_min / 5 then ((0 : ℚ), (0 : ℚ)) else p
  (if p2.1 > 1 then 1 else p2.1, if p2.2 > 1 then 1 else p2.2)

/-- One cell of the `find_ionised_regions` loop body (lines 923-1078):
criterion test, first-crossing `Gamma12`/`MFP` assignment, `z_re`
book-keeping, bubble flagging (center or sphere), and the cell-scale
residual ionisation on the last filter step. -/
def cell_step {n : ℕ} (M : Model n) (ri : RInputs n) (mft_acg mft_mcg : ℚ)
    (s : Box n) (c : Fin n) : Box n :=
  let fc := cell_fcoll M ri mft_acg c
  let fcm := cell_fcoll_mini M ri mft_mcg c
  let dens := cell_dens M ri c
  let xrays := cell_xrays M ri c
  if cell_crit M ri mft_acg mft_mcg c then
    let s1 :=
      if M.flags.inhomo_reco ∧ s.xH c > M.co.fract_float_err then
        { s with
          Gamma12 := Function.update s.Gamma12 c
            (if M.flags.use_halo_field then
                ri.R * M.co.gamma_prefactor / (1 + dens) * ri.sfr_filtered c
              else
                ri.R * M.co.gamma_prefactor * fc + M.co.gamma_prefactor_mini * fcm),
          MFP := Function.update s.MFP c ri.R }
      else s
    let zval := if M.prev.z_re c < 0 then M.co.redshift else M.prev.z_re c
    let s2 := { s1 with z_re := Function.update s1.z_re c zval }
    if M.flags.find_bubble_algorithm = 2 then
      { s2 with xH := Function.update s2.xH c 0 }
    else if M.flags.find_bubble_algorithm = 1 then
      { s2 with xH := paint_sphere M ri.R c s2.xH }
    else s2
  else if ri.R_index = 0 ∧ s.xH c > M.co.tiny then
    let pr :=
      if ¬M.flags.use_halo_field then poisson_fcoll_pair M fc fcm dens (ri.poisson_draw c)
      else (fc, fcm)
    let res0 := 1 - pr.1 * M.co.ion_eff_factor - pr.2 * M.co.ion_eff_factor_mini
    let res1 := res0 - xrays
    let res2 := if res1 < 0 then (0 : ℚ) else if res1 > 1 then 1 else res1
    { s with xH := Function.update s.xH c res2 }
  else s

/-- Box mean of a stored `Fcoll` slice, as accumulated by
`calculate_fcoll_grid` (`f_coll_total / HII_TOT_NUM_PIXELS`). -/
def grid_mean {n : ℕ} (f : Fin n → ℚ) : ℚ :=
  (((List.finRange n).map f).sum) / n

/-- Function `calculate_fcoll_grid` accumulates `f_coll_MINI_total` only in the
`USE_MINI_HALOS && !USE_HALO_FIELD` branch; otherwise the mini mean is 0. -/
def raw_mean_mini {n : ℕ} (M : Model n) (ri : RInputs n) : ℚ :=
  if M.flags.use_mini_halos ∧ ¬M.flags.use_halo_field then grid_mean ri.fcoll_mini else 0

/-- The lower clamp `ComputeIonizedBox` applies to the grid mean before
calling `find_ionised_regions` (lines 1412-1420): `f_limit_acg` under
mass-dependent zeta, else `FRACT_FLOAT_ERR`. -/
def clamped_mean_acg {n : ℕ} (M : Model n) (raw : ℚ) : ℚ :=
  if M.flags.use_mass_dependent_zeta then
    (if raw ≤ M.co.f_limit_acg then M.co.f_limit_acg else raw)
  else (if raw ≤ M.co.fract_float_err then M.co.fract_float_err else raw)

/-- The corresponding clamp of the MINI grid mean (lines 1414-1416). -/
def clamped_mean_mcg {n : ℕ} (M : Model n) (raw : ℚ) : ℚ :=
  if M.flags.use_mass_dependent_zeta ∧ M.flags.use_mini_halos then
    (if raw ≤ M.co.f_limit_mcg then M.co.f_limit_mcg else raw)
  else raw

/-- The `mean_fix_term_acg` of `find_ionised_regions` (lines 893-902). -/
def mft_acg_of {n : ℕ} (M : Model n) (s : Box n) (ri : RInputs n) : ℚ :=
  if fix_mean M.flags then s.mean_f_coll / clamped_mean_acg M (grid_mean ri.fcoll) else 1

/-- The `mean_fix_term_mcg` of `find_ionised_regions` (lines 893-902). -/
def mft_mcg_of {n : ℕ} (M : Model n) (s : Box n) (ri : RInputs n) : ℚ :=
  if fix_mean M.flags then s.mean_f_coll_MINI / clamped_mean_mcg M (raw_mean_mini M ri) else 1

/-- One radius iteration of the R-loop: mean handling of
`find_ionised_regions` (overwrite `mean_f_coll` with the clamped grid mean
when the mean is not being fixed, lines 903-908) followed by the per-cell
loop. -/
def radius_step {n : ℕ} (M : Model n) (s : Box n) (ri : RInputs n) : Box n :=
  let s0 := if fix_mean M.flags then s
    else { s with mean_f_coll := clamped_mean_acg M (grid_mean ri.fcoll),
                  mean_f_coll_MINI := clamped_mean_mcg M (raw_mean_mini M ri) }
  (List.finRange n).foldl (cell_step M ri (mft_acg_of M s ri) (mft_mcg_of M s ri)) s0

/-- The R-loop of `ComputeIonizedBox` (line 1383), over the processed radii
in decreasing order of `R` (the last entry is the cell-scale step with
`R_index = 0`). -/
def run {n : ℕ} (M : Model n) (rs : List (RInputs n)) (s : Box n) : Box n :=
  rs.foldl (radius_step M) s

/-- The expected global HII fraction tested against `HII_ROUND_ERR`
(`ComputeIonizedBox` lines 1327-1328). -/
def exp_global_hii (mean_f_coll mean_f_coll_MINI ion_eff_gl ion_eff_mini_gl : ℚ) : ℚ :=
  mean_f_coll * ion_eff_gl + mean_f_coll_MINI * ion_eff_mini_gl

/-- Function `set_fully_neutral_box` (lines 510-537), restricted to the `xH` field:
`1 - x_e` per cell under `USE_TS_FLUCT`, else the uniform
`1 - xion_RECFAST(z)`. -/
def set_fully_neutral_xH {n : ℕ} (M : Model n) (x_e : Fin n → ℚ) (xion_recfast_z : ℚ) :
    Fin n → ℚ :=
  fun c => if M.flags.use_ts_fluct then 1 - x_e c else 1 - xion_recfast_z

/-- The early-out branch structure of `ComputeIonizedBox` (lines 1342-1346),
restricted to the `xH` output: if the expected global ionised fraction is
below `HII_ROUND_ERR` the box is set fully neutral and the R-loop is never
entered, else the R-loop runs. -/
def compute_ionized_box_xH {n : ℕ} (M : Model n) (x_e : Fin n → ℚ) (xion_recfast_z : ℚ)
    (s0 : Box n) (rs : List (RInputs n)) : Fin n → ℚ :=
  if exp_global_hii s0.mean_f_coll s0.mean_f_coll_MINI
      M.co.ion_eff_factor_gl M.co.ion_eff_factor_mini_gl < M.co.hii_round_err then
    set_fully_neutral_xH M x_e xion_recfast_z
  else (run M rs s0).xH

end IonModel

namespace Recomb

/-- One cell of `set_recombination_rates` (`IonisationBox.c` lines 1144-1156):
`rate_val` stands for the external fit
`splined_recombination_rate(z_eff - 1, Gamma12)` evaluated at the cell,
`fabs_dtdz` for `consts->fabs_dtdz = |dtdz(z)|/1e15`, and `dz` for
`consts->dz` from `set_ionbox_constants`.  The new cumulative count is
`prev + rate * |dt/dz| * dz * (1 - xH)`. -/
def dNrec_cell_update (rate_val fabs_dtdz dz prev_dNrec xH : ℚ) : ℚ :=
  prev_dNrec + rate_val * fabs_dtdz * dz * (1 - xH)

end Recomb

namespace FcollGrid

/-- The clip applied to the current and previous conditional-Nion terms in
`calculate_fcoll_grid` (lines 796-799): values above 1 become 1, negative
values become `1e-40`; values in `(0, 1e-40)` are kept. -/
def fcoll_term_clip (f : ℚ) : ℚ :=
  if f > 1 then 1 else if f < 0 then 1 / 10 ^ 40 else f

/-- The trapezoidal `Fcoll` update of `calculate_fcoll_grid` in the
`USE_MINI_HALOS && !USE_HALO_FIELD` branch (lines 795-806, identically for
`Fcoll_MINI` at lines 816-826): the stored value is
`prev_box_Fcoll + clip(N_now) - clip(N_prev)`, clamped above at 1; the
lower clamp to `1e-40` is commented out in the source. -/
def fcoll_cell_update (prev_fcoll splined prev_splined : ℚ) : ℚ :=
  let v := prev_fcoll + fcoll_term_clip splined - fcoll_term_clip prev_splined
  if v > 1 then 1 else v

end FcollGrid

namespace SpinTemp

/-- The `setup_z_edges` initial radius (line 339):
`R = L_FACTOR * BOX_LEN / HII_DIM`, the cell scale. -/
def R_values_0 (l_factor box_len : ℚ) (hii_dim : ℕ) : ℚ :=
  l_factor * box_len / hii_dim

/-- The shell radii of `setup_z_edges` (lines 342-376): `R_values[0] = R0`
and each iteration multiplies by the constant `R_factor`
(`R *= R_factor`).  In the source `R_factor` is
`pow(R_XLy_MAX / R0, 1 / NUM_FILTER_STEPS_FOR_Ts)` (line 340); here the
factor enters as a value characterised by
`Rfac ^ NUM_FILTER_STEPS_FOR_Ts = R_XLy_MAX / R0`. -/
def R_values (R0 Rfac : ℚ) : ℕ → ℚ
  | 0 => R0
  | k + 1 => R_values R0 Rfac k * Rfac

end SpinTemp

namespace HaloGridder

/-- The per-halo outputs of `set_halo_properties` consumed by
`sum_halos_onto_grid` (lines 838-844). -/
structure HaloProps where
  stellar_mass : ℚ
  stellar_mass_mini : ℚ
  halo_sfr : ℚ
  sfr_mini : ℚ
  fescweighted_sfr : ℚ
  n_ion : ℚ
  halo_xray : ℚ

/-- One catalogue entry as read by `sum_halos_onto_grid`: the halo mass and
the cell index obtained from its (integer-truncated) coordinates. -/
structure Halo (n : ℕ) where
  mass : ℚ
  cell : Fin n

/-- The `HaloBox` output grids touched by `ComputeHaloBox` and
`sum_halos_onto_grid`. -/
structure HaloGrids (n : ℕ) where
  halo_mass : Fin n → ℚ
  halo_stars : Fin n → ℚ
  halo_stars_mini : Fin n → ℚ
  n_ion : Fin n → ℚ
  halo_sfr : Fin n → ℚ
  halo_sfr_mini : Fin n → ℚ
  whalo_sfr : Fin n → ℚ
  halo_xray : Fin n → ℚ
  count : Fin n → ℤ

/-- The `struct HaloProperties` averages output of `sum_halos_onto_grid`
(lines 936-945). -/
structure HaloAverages where
  halo_mass : ℚ
  stellar_mass : ℚ
  stellar_mass_mini : ℚ
  halo_sfr : ℚ
  sfr_mini : ℚ
  halo_xray : ℚ
  n_ion : ℚ
  m_turn_acg : ℚ
  m_turn_mcg : ℚ
  m_turn_reion : ℚ

/-- The running state of the halo loop of `sum_halos_onto_grid`: the grids
plus the reduction sums and the cut-halo counter. -/
structure SumAcc (n : ℕ) where
  g : HaloGrids n
  hm : ℚ
  sm : ℚ
  smm : ℚ
  sf : ℚ
  sfm : ℚ
  ni : ℚ
  xr : ℚ
  ws : ℚ
  mta : ℚ
  mtm : ℚ
  mtr : ℚ
  n_cut : ℕ

/-- The atomic adds of one halo into its cell (lines 861-879). -/
def add_halo_to_grid {n : ℕ} (g : HaloGrids n) (c : Fin n) (hmass : ℚ) (p : HaloProps) :
    HaloGrids n :=
  { halo_mass := Function.update g.halo_mass c (g.halo_mass c + hmass),
    halo_stars := Function.update g.halo_stars c (g.halo_stars c + p.stellar_mass),
    halo_stars_mini := Function.update g.halo_stars_mini c (g.halo_stars_mini c + p.stellar_mass_mini),
    n_ion := Function.update g.n_ion c (g.n_ion c + p.n_ion),
    halo_sfr := Function.update g.halo_sfr c (g.halo_sfr c + p.halo_sfr),
    halo_sfr_mini := Function.update g.halo_sfr_mini c (g.halo_sfr_mini c + p.sfr_mini),
    whalo_sfr := Function.update g.whalo_sfr c (g.whalo_sfr c + p.fescweighted_sfr),
    halo_xray := Function.update g.halo_xray c (g.halo_xray c + p.halo_xray),
    count := Function.update g.count c (g.count c + 1) }

/-- One iteration of the halo loop (lines 797-892): a halo with zero mass
is cut (lines 801-804); otherwise its properties (`props`, standing for
`set_halo_properties`) are added to its cell and to the reduction sums,
together with its turnover masses (`turn`, standing for the
`lyman_werner_threshold` / `reionization_feedback` evaluations of
lines 824-828, which live outside this repository sources). -/
def halo_fold_step {n : ℕ} (props : Halo n → HaloProps) (turn : Halo n → ℚ × ℚ × ℚ)
    (acc : SumAcc n) (h : Halo n) : SumAcc n :=
  if h.mass = 0 then { acc with n_cut := acc.n_cut + 1 }
  else
    let p := props h
    let t := turn h
    { g := add_halo_to_grid acc.g h.cell h.mass p,
      hm := acc.hm + h.mass,
      sm := acc.sm + p.stellar_mass,
      smm := acc.smm + p.stellar_mass_mini,
      sf := acc.sf + p.halo_sfr,
      sfm := acc.sfm + p.sfr_mini,
      ni := acc.ni + p.n_ion,
      xr := acc.xr + p.halo_xray,
      ws := acc.ws + p.fescweighted_sfr,
      mta := acc.mta + t.1,
      mtm := acc.mtm + t.2.1,
      mtr := acc.mtr + t.2.2,
      n_cut := acc.n_cut }

/-- The density normalisation after the halo loop (lines 894-904): every
emissivity grid is divided by the cell volume; `count` is not. -/
def divide_grids {n : ℕ} (cell_volume : ℚ) (g : HaloGrids n) : HaloGrids n :=
  { halo_mass := fun c => g.halo_mass c / cell_volume,
    halo_stars := fun c => g.halo_stars c / cell_volume,
    halo_stars_mini := fun c => g.halo_stars_mini c / cell_volume,
    n_ion := fun c => g.n_ion c / cell_volume,
    halo_sfr := fun c => g.halo_sfr c / cell_volume,
    halo_sfr_mini := fun c => g.halo_sfr_mini c / cell_volume,
    whalo_sfr := fun c => g.whalo_sfr c / cell_volume,
    halo_xray := fun c => g.halo_xray c / cell_volume,
    count := g.count }

/-- The zero-initialised reduction state entering the halo loop. -/
def init_acc {n : ℕ} (g0 : HaloGrids n) : SumAcc n :=
  { g := g0, hm := 0, sm := 0, smm := 0, sf := 0, sfm := 0, ni := 0, xr := 0, ws := 0,
    mta := 0, mtm := 0, mtr := 0, n_cut := 0 }

/-- Function `sum_halos_onto_grid` (lines 769-946): fold the catalogue into the
grids, divide by cell volume, and produce the averages; when every halo
was cut (`total_n_halos = 0`) the turnover averages fall back to the
no-feedback values (lines 916-926). -/
def sum_halos_onto_grid {n : ℕ} (props : Halo n → HaloProps) (turn : Halo n → ℚ × ℚ × ℚ)
    (mturn_a_nofb mturn_m_nofb cell_volume volume : ℚ)
    (halos : List (Halo n)) (g0 : HaloGrids n) : HaloGrids n × HaloAverages :=
  let acc := halos.foldl (halo_fold_step props turn) (init_acc g0)
  let g := divide_grids cell_volume acc.g
  let total : ℕ := halos.length - acc.n_cut
  let mta := if total > 0 then acc.mta / total else mturn_a_nofb
  let mtm := if total > 0 then acc.mtm / total else mturn_m_nofb
  let mtr := if total > 0 then acc.mtr / total else 0
  (g, { halo_mass := acc.hm / volume,
        stellar_mass := acc.sm / volume,
        stellar_mass_mini := acc.smm / volume,
        halo_sfr := acc.sf / volume,
        sfr_mini := acc.sfm / volume,
        halo_xray := acc.xr / volume,
        n_ion := acc.ni / volume,
        m_turn_acg := mta,
        m_turn_mcg := mtm,
        m_turn_reion := mtr })

/-- The zero-initialisation loop of `ComputeHaloBox` (lines 959-968): it
resets eight of the output grids; `halo_xray` is absent from this loop, so
its prior buffer contents (zeroed by the caller that allocates the output
struct) persist into the gridder. -/
def compute_halobox_init {n : ℕ} (g : HaloGrids n) : HaloGrids n :=
  { g with halo_mass := fun _ => 0, n_ion := fun _ => 0, halo_sfr := fun _ => 0,
           halo_sfr_mini := fun _ => 0, halo_stars := fun _ => 0, halo_stars_mini := fun _ => 0,
           whalo_sfr := fun _ => 0, count := fun _ => 0 }

/-- The halo-catalogue path of `ComputeHaloBox` (lines 994-1026, without
`AVG_BELOW_SAMPLER`): zero-initialise the grids, then run the gridder. -/
def compute_halobox_halo_mode {n : ℕ} (props : Halo n → HaloProps) (turn : Halo n → ℚ × ℚ × ℚ)
    (mturn_a_nofb mturn_m_nofb cell_volume volume : ℚ)
    (halos : List (Halo n)) (g_in : HaloGrids n) : HaloGrids n × HaloAverages :=
  sum_halos_onto_grid props turn mturn_a_nofb mturn_m_nofb cell_volume volume halos
    (compute_halobox_init g_in)

end HaloGridder

namespace IonModel

/-- Base flag configuration of the concrete test instances: no halo field,
no minihalos, plain zeta, no TS coupling, no recombinations, center
bubble algorithm, deterministic RNG. -/
def baseFlags : Flags :=
  { use_halo_field := false, use_mini_halos := false, use_mass_dependent_zeta := false,
    use_ts_fluct := false, inhomo_reco := false, cell_recomb := false, no_rng := true,
    find_bubble_algorithm := 2 }

/-- Base constants of the concrete test instances (round-number stand-ins
for the externally computed quantities). -/
def baseConsts : Consts :=
  { redshift := 8, prev_redshift := 9, photoncons_adjustment_factor := 1,
    ion_eff_factor := 1, ion_eff_factor_mini := 1, ion_eff_factor_gl := 1,
    ion_eff_factor_mini_gl := 1, gamma_prefactor := 1, gamma_prefactor_mini := 1,
    pixel_mass := 1, m_min := 1, f_limit_acg := 0, f_limit_mcg := 0, rhocrit := 1, omb := 1,
    fract_float_err := 1 / 10 ^ 7, tiny := 1 / 10 ^ 30, n_poisson := 5,
    hii_round_err := 1 / 10 ^ 5 }

/-- One-cell model at the ionisation-criterion boundary. -/
def exC1_M : Model 1 :=
  { flags := baseFlags, co := baseConsts, perturb_density := fun _ => 0,
    prev := { z_re := fun _ => -1, dNrec := fun _ => 0 }, insphere := fun _ _ _ => true }

/-- Radius inputs putting the single cell exactly on the ionisation
threshold (`f_coll = 1`, `zeta = 1`, no x-rays, no recombinations) at a
non-final radius. -/
def exC1_ri : RInputs 1 :=
  { R := 1, R_index := 1, fcoll := fun _ => 1, fcoll_mini := fun _ => 0,
    deltax_filtered := fun _ => 0, nrec_filtered := fun _ => 0, xe_filtered := fun _ => 0,
    sfr_filtered := fun _ => 0, poisson_draw := fun _ => 0 }

/-- Fresh snapshot box: fully neutral, `z_re = -1`, grid-consistent mean. -/
def exC1_box : Box 1 :=
  { xH := fun _ => 1, Gamma12 := fun _ => 0, MFP := fun _ => 0, z_re := fun _ => -1,
    mean_f_coll := 1, mean_f_coll_MINI := 0 }

/-- Two-cell model using the sphere bubble algorithm whose sphere covers
both cells. -/
def exC3_M : Model 2 :=
  { flags := { baseFlags with find_bubble_algorithm := 1 }, co := baseConsts,
    perturb_density := fun _ => 0,
    prev := { z_re := fun _ => -1, dNrec := fun _ => 0 }, insphere := fun _ _ _ => true }

/-- Radius inputs where only cell 0 crosses the threshold
(`f_coll = 2` there, `0` at cell 1). -/
def exC3_ri : RInputs 2 :=
  { R := 1, R_index := 1, fcoll := fun c => if c = 0 then 2 else 0, fcoll_mini := fun _ => 0,
    deltax_filtered := fun _ => 0, nrec_filtered := fun _ => 0, xe_filtered := fun _ => 0,
    sfr_filtered := fun _ => 0, poisson_draw := fun _ => 0 }

/-- Fresh two-cell snapshot box with grid-consistent mean. -/
def exC3_box : Box 2 :=
  { xH := fun _ => 1, Gamma12 := fun _ => 0, MFP := fun _ => 0, z_re := fun _ => -1,
    mean_f_coll := 1, mean_f_coll_MINI := 0 }

/-- One-cell model for the cell-scale RNG step: deterministic mode with
`N_POISSON = 5` and unit pixel mass and minimum source mass. -/
def exC7_M : Model 1 :=
  { flags := baseFlags, co := baseConsts, perturb_density := fun _ => 0,
    prev := { z_re := fun _ => -1, dNrec := fun _ => 0 }, insphere := fun _ _ _ => true }

/-- One-cell halo-field model (`fix_mean = false`) with a mass-dependent
zeta floor `f_limit_acg = 1/2` above the grid mean. -/
def exC10_M : Model 1 :=
  { flags := { baseFlags with use_halo_field := true, use_mass_dependent_zeta := true },
    co := { baseConsts with f_limit_acg := 1 / 2 },
    perturb_density := fun _ => 0,
    prev := { z_re := fun _ => -1, dNrec := fun _ => 0 }, insphere := fun _ _ _ => true }

/-- Radius inputs whose stored `Fcoll` grid has box mean `1/4`. -/
def exC10_ri : RInputs 1 :=
  { R := 1, R_index := 1, fcoll := fun _ => 1 / 4, fcoll_mini := fun _ => 0,
    deltax_filtered := fun _ => 0, nrec_filtered := fun _ => 0, xe_filtered := fun _ => 0,
    sfr_filtered := fun _ => 0, poisson_draw := fun _ => 0 }

/-- Snapshot box carrying the globally expected mean `7` before the R-loop
overwrites it in halo-field mode. -/
def exC10_box : Box 1 :=
  { xH := fun _ => 1, Gamma12 := fun _ => 0, MFP := fun _ => 0, z_re := fun _ => -1,
    mean_f_coll := 7, mean_f_coll_MINI := 0 }

end IonModel

namespace IonModel

/-- Already-ionised one-cell box (`xH = 0`) carrying nonzero `Gamma12` and
`MFP` from its first threshold crossing. -/
def exC2_box : Box 1 :=
  { xH := fun _ => 0, Gamma12 := fun _ => 3, MFP := fun _ => 4, z_re := fun _ => 8,
    mean_f_coll := 1, mean_f_coll_MINI := 0 }

/-- Snapshot box whose expected collapse is zero, triggering the
fully-neutral early-out. -/
def exC5_box : Box 1 :=
  { xH := fun _ => 1, Gamma12 := fun _ => 0, MFP := fun _ => 0, z_re := fun _ => -1,
    mean_f_coll := 0, mean_f_coll_MINI := 0 }

end IonModel

namespace HaloGridder

/-- One-cell grids with every buffer zeroed (as allocated by the caller). -/
def exC9_grids : HaloGrids 1 :=
  { halo_mass := fun _ => 0, halo_stars := fun _ => 0, halo_stars_mini := fun _ => 0,
    n_ion := fun _ => 0, halo_sfr := fun _ => 0, halo_sfr_mini := fun _ => 0,
    whalo_sfr := fun _ => 0, halo_xray := fun _ => 0, count := fun _ => 0 }

/-- A catalogue holding two halos, both with zero mass (excluded from
gridding). -/
def exC9_halos : List (Halo 1) := [{ mass := 0, cell := 0 }, { mass := 0, cell := 0 }]

/-- Concrete stand-in for `set_halo_properties` on the test catalogue. -/
def exC9_props : Halo 1 → HaloProps :=
  fun _ => { stellar_mass := 2, stellar_mass_mini := 3, halo_sfr := 4, sfr_mini := 5,
             fescweighted_sfr := 6, n_ion := 7, halo_xray := 8 }

/-- Concrete stand-in for the per-halo turnover evaluations. -/
def exC9_turn : Halo 1 → ℚ × ℚ × ℚ := fun _ => (11, 12, 13)

end HaloGridder

namespace IonModel

theorem cell_step_zre_of_ne {n : ℕ} (M : Model n) (ri : RInputs n) (a b : ℚ) (s : Box n)
    {c d : Fin n} (h : c ≠ d) : (cell_step M ri a b s d).z_re c = s.z_re c := by
  unfold cell_step
  split_ifs <;> simp [Function.update_noteq h]

theorem cell_step_zre_self {n : ℕ} (M : Model n) (ri : RInputs n) (a b : ℚ) (s : Box n)
    (c : Fin n) : (cell_step M ri a b s c).z_re c =
      if cell_crit M ri a b c then
        (if M.prev.z_re c < 0 then M.co.redshift else M.prev.z_re c)
      else s.z_re c := by
  unfold cell_step
  split_ifs <;> simp [Function.update_same]

theorem foldl_cellstep_zre_of_not_mem {n : ℕ} (M : Model n) (ri : RInputs n) (a b : ℚ)
    {c : Fin n} : ∀ (L : List (Fin n)) (s : Box n), c ∉ L →
      ((L.foldl (cell_step M ri a b) s).z_re c = s.z_re c)
  | [], s, _ => rfl
  | d :: L, s, h => by
    have hcd : c ≠ d := fun hc => h (hc ▸ List.mem_cons_self d L)
    have hL : c ∉ L := fun hc => h (List.mem_cons_of_mem d hc)
    rw [List.foldl_cons, foldl_cellstep_zre_of_not_mem M ri a b L _ hL,
      cell_step_zre_of_ne M ri a b s hcd]

theorem radius_step_zre {n : ℕ} (M : Model n) (s : Box n) (ri : RInputs n) (c : Fin n) :
    (radius_step M s ri).z_re c =
      if cell_crit M ri (mft_acg_of M s ri) (mft_mcg_of M s ri) c then
        (if M.prev.z_re c < 0 then M.co.redshift else M.prev.z_re c)
      else s.z_re c := by
  obtain ⟨A, B, hAB⟩ := List.append_of_mem (List.mem_finRange c)
  have hnd := List.nodup_finRange n
  rw [hAB] at hnd
  have hcB : c ∉ B := by
    have := (List.nodup_append.mp hnd).2.1
    exact (List.nodup_cons.mp this).1
  have hcA : c ∉ A := by
    intro hc
    exact ((List.nodup_append.mp hnd).2.2 hc) (List.mem_cons_self c B)
  unfold radius_step
  rw [hAB, List.foldl_append, List.foldl_cons,
    foldl_cellstep_zre_of_not_mem M ri _ _ B _ hcB, cell_step_zre_self,
    foldl_cellstep_zre_of_not_mem M ri _ _ A _ hcA]
  split_ifs with hfm hc hc <;> rfl

theorem cell_step_mean {n : ℕ} (M : Model n) (ri : RInputs n) (a b : ℚ) (s : Box n)
    (d : Fin n) : (cell_step M ri a b s d).mean_f_coll = s.mean_f_coll ∧
      (cell_step M ri a b s d).mean_f_coll_MINI = s.mean_f_coll_MINI := by
  unfold cell_step
  split_ifs <;> exact ⟨rfl, rfl⟩

theorem foldl_cellstep_mean {n : ℕ} (M : Model n) (ri : RInputs n) (a b : ℚ) :
    ∀ (L : List (Fin n)) (s : Box n),
      ((L.foldl (cell_step M ri a b) s).mean_f_coll = s.mean_f_coll ∧
        (L.foldl (cell_step M ri a b) s).mean_f_coll_MINI = s.mean_f_coll_MINI)
  | [], s => ⟨rfl, rfl⟩
  | d :: L, s => by
    rw [List.foldl_cons]
    obtain ⟨h1, h2⟩ := foldl_cellstep_mean M ri a b L (cell_step M ri a b s d)
    obtain ⟨g1, g2⟩ := cell_step_mean M ri a b s d
    exact ⟨h1.trans g1, h2.trans g2⟩

theorem radius_step_mean_of_fix {n : ℕ} (M : Model n) (s : Box n) (ri : RInputs n)
    (hfm : fix_mean M.flags = true) :
    (radius_step M s ri).mean_f_coll = s.mean_f_coll ∧
      (radius_step M s ri).mean_f_coll_MINI = s.mean_f_coll_MINI := by
  unfold radius_step
  rw [if_pos hfm]
  exact foldl_cellstep_mean M ri _ _ _ s

theorem radius_step_mean_of_not_fix {n : ℕ} (M : Model n) (s : Box n) (ri : RInputs n)
    (hfm : fix_mean M.flags = false) :
    (radius_step M s ri).mean_f_coll = clamped_mean_acg M (grid_mean ri.fcoll) ∧
      (radius_step M s ri).mean_f_coll_MINI = clamped_mean_mcg M (raw_mean_mini M ri) := by
  unfold radius_step
  rw [hfm]
  simp only [Bool.false_eq_true, if_false]
  exact foldl_cellstep_mean M ri _ _ _ _

theorem mft_acg_of_radius_step {n : ℕ} (M : Model n) (s : Box n) (ri0 ri : RInputs n) :
    mft_acg_of M (radius_step M s ri0) ri = mft_acg_of M s ri := by
  unfold mft_acg_of
  rcases hfm : fix_mean M.flags with _ | _
  · simp only [Bool.false_eq_true, if_false]
  · rw [if_pos rfl, if_pos rfl, (radius_step_mean_of_fix M s ri0 hfm).1]

theorem mft_mcg_of_radius_step {n : ℕ} (M : Model n) (s : Box n) (ri0 ri : RInputs n) :
    mft_mcg_of M (radius_step M s ri0) ri = mft_mcg_of M s ri := by
  unfold mft_mcg_of
  rcases hfm : fix_mean M.flags with _ | _
  · simp only [Bool.false_eq_true, if_false]
  · rw [if_pos rfl, if_pos rfl, (radius_step_mean_of_fix M s ri0 hfm).2]

theorem zre_write_ne_neg_one {n : ℕ} (M : Model n) (c : Fin n) (hred : 0 < M.co.redshift) :
    (if M.prev.z_re c < 0 then M.co.redshift else M.prev.z_re c) ≠ -1 := by
  split_ifs with h
  · exact ne_of_gt (lt_trans (by norm_num) hred)
  · push_neg at h
    exact ne_of_gt (lt_of_lt_of_le (by norm_num) h)

theorem run_zre_ne {n : ℕ} (M : Model n) (hred : 0 < M.co.redshift) :
    ∀ (rs : List (RInputs n)) (t : Box n) (c : Fin n), t.z_re c ≠ -1 →
      (run M rs t).z_re c ≠ -1
  | [], t, c, h => h
  | ri :: rs, t, c, h => by
    rw [run, List.foldl_cons]
    refine run_zre_ne M hred rs _ c ?_
    rw [radius_step_zre]
    by_cases hc : cell_crit M ri (mft_acg_of M t ri) (mft_mcg_of M t ri) c = true
    · rw [if_pos hc]
      exact zre_write_ne_neg_one M c hred
    · rw [if_neg hc]
      exact h

theorem cell_step_pres {n : ℕ} (M : Model n) (ri : RInputs n) (a b : ℚ) (s : Box n)
    (c d : Fin n) (hff : 0 ≤ M.co.fract_float_err) (ht : 0 ≤ M.co.tiny)
    (hxH : s.xH c = 0) :
    (cell_step M ri a b s d).xH c = 0 ∧
      (cell_step M ri a b s d).Gamma12 c = s.Gamma12 c ∧
      (cell_step M ri a b s d).MFP c = s.MFP c := by
  have hne1 : ¬(s.xH c > M.co.fract_float_err) := by rw [hxH]; exact not_lt.mpr hff
  have hne2 : ¬(s.xH c > M.co.tiny) := by rw [hxH]; exact not_lt.mpr ht
  rcases eq_or_ne c d with rfl | hcd
  · unfold cell_step
    split_ifs <;>
      first
        | exact absurd (And.right
            (show M.flags.inhomo_reco = true ∧ s.xH c > M.co.fract_float_err from by assumption))
            hne1
        | exact absurd (And.right
            (show ri.R_index = 0 ∧ s.xH c > M.co.tiny from by assumption)) hne2
        | simp_all [paint_sphere, Function.update_same]
  · unfold cell_step
    split_ifs <;>
      simp_all [paint_sphere, Function.update_noteq hcd, Function.update_same]

theorem foldl_cellstep_pres {n : ℕ} (M : Model n) (ri : RInputs n) (a b : ℚ) (c : Fin n)
    (hff : 0 ≤ M.co.fract_float_err) (ht : 0 ≤ M.co.tiny) :
    ∀ (L : List (Fin n)) (s : Box n), s.xH c = 0 →
      ((L.foldl (cell_step M ri a b) s).xH c = 0 ∧
        (L.foldl (cell_step M ri a b) s).Gamma12 c = s.Gamma12 c ∧
        (L.foldl (cell_step M ri a b) s).MFP c = s.MFP c)
  | [], s, h => ⟨h, rfl, rfl⟩
  | d :: L, s, h => by
    rw [List.foldl_cons]
    obtain ⟨p1, p2, p3⟩ := cell_step_pres M ri a b s c d hff ht h
    obtain ⟨q1, q2, q3⟩ := foldl_cellstep_pres M ri a b c hff ht L (cell_step M ri a b s d) p1
    exact ⟨q1, q2.trans p2, q3.trans p3⟩

theorem radius_step_pres {n : ℕ} (M : Model n) (s : Box n) (ri : RInputs n) (c : Fin n)
    (hff : 0 ≤ M.co.fract_float_err) (ht : 0 ≤ M.co.tiny) (hxH : s.xH c = 0) :
    (radius_step M s ri).xH c = 0 ∧
      (radius_step M s ri).Gamma12 c = s.Gamma12 c ∧
      (radius_step M s ri).MFP c = s.MFP c := by
  unfold radius_step
  split_ifs with hfm
  · exact foldl_cellstep_pres M ri _ _ c hff ht _ s hxH
  · exact foldl_cellstep_pres M ri _ _ c hff ht _ _ hxH

theorem cell_step_gmfp_of_ne {n : ℕ} (M : Model n) (ri : RInputs n) (a b : ℚ) (s : Box n)
    {c d : Fin n} (h : c ≠ d) :
    (cell_step M ri a b s d).Gamma12 c = s.Gamma12 c ∧
      (cell_step M ri a b s d).MFP c = s.MFP c := by
  unfold cell_step
  split_ifs <;> simp [Function.update_noteq h]

theorem cell_step_gmfp_self_not_crit {n : ℕ} (M : Model n) (ri : RInputs n) (a b : ℚ)
    (s : Box n) (c : Fin n) (h : cell_crit M ri a b c = false) :
    (cell_step M ri a b s c).Gamma12 c = s.Gamma12 c ∧
      (cell_step M ri a b s c).MFP c = s.MFP c := by
  unfold cell_step
  rw [if_neg (by rw [h]; exact Bool.false_ne_true)]
  split_ifs <;> exact ⟨rfl, rfl⟩

theorem foldl_cellstep_gmfp_not_crit {n : ℕ} (M : Model n) (ri : RInputs n) (a b : ℚ)
    (c : Fin n) (h : cell_crit M ri a b c = false) :
    ∀ (L : List (Fin n)) (s : Box n),
      ((L.foldl (cell_step M ri a b) s).Gamma12 c = s.Gamma12 c ∧
        (L.foldl (cell_step M ri a b) s).MFP c = s.MFP c)
  | [], _ => ⟨rfl, rfl⟩
  | d :: L, s => by
    rw [List.foldl_cons]
    obtain ⟨q1, q2⟩ := foldl_cellstep_gmfp_not_crit M ri a b c h L (cell_step M ri a b s d)
    rcases eq_or_ne c d with rfl | hcd
    · obtain ⟨p1, p2⟩ := cell_step_gmfp_self_not_crit M ri a b s c h
      exact ⟨q1.trans p1, q2.trans p2⟩
    · obtain ⟨p1, p2⟩ := cell_step_gmfp_of_ne M ri a b s hcd
      exact ⟨q1.trans p1, q2.trans p2⟩

theorem radius_step_gmfp_not_crit {n : ℕ} (M : Model n) (s : Box n) (ri : RInputs n)
    (c : Fin n) (h : cell_crit M ri (mft_acg_of M s ri) (mft_mcg_of M s ri) c = false) :
    (radius_step M s ri).Gamma12 c = s.Gamma12 c ∧
      (radius_step M s ri).MFP c = s.MFP c := by
  unfold radius_step
  split_ifs with hfm
  · exact foldl_cellstep_gmfp_not_crit M ri _ _ c h _ s
  · exact foldl_cellstep_gmfp_not_crit M ri _ _ c h _ _

theorem cell_crit_iff {n : ℕ} (M : Model n) (ri : RInputs n) (a b : ℚ) (c : Fin n) :
    cell_crit M ri a b c = true ↔
      cell_fcoll M ri a c * M.co.ion_eff_factor +
          cell_fcoll_mini M ri b c * M.co.ion_eff_factor_mini >
        (1 - cell_xrays M ri c) * (1 + cell_rec M ri c) := by
  simp [cell_crit]

/-- Claim C1 (counterexample): a cell with `xH > 0` sitting exactly on the
ionisation boundary (`f_coll * zeta = 1 = (1 - x_HII)*(1 + rec)`) satisfies
the `≥` criterion of the claim but is not flagged ionised by the radius step:
its `xH` stays 1 and its `z_re` stays -1, because the source compares with
a strict `>` (`IonisationBox.c` line 988). -/
theorem C1_counterexample :
    exC1_box.xH 0 > 0 ∧
      cell_fcoll exC1_M exC1_ri (mft_acg_of exC1_M exC1_box exC1_ri) 0 *
            exC1_M.co.ion_eff_factor +
          cell_fcoll_mini exC1_M exC1_ri (mft_mcg_of exC1_M exC1_box exC1_ri) 0 *
            exC1_M.co.ion_eff_factor_mini ≥
        (1 - cell_xrays exC1_M exC1_ri 0) * (1 + cell_rec exC1_M exC1_ri 0) ∧
      (radius_step exC1_M exC1_box exC1_ri).xH 0 = 1 ∧
      (radius_step exC1_M exC1_box exC1_ri).z_re 0 = -1 := by
  with_unfolding_all decide

/-- Claim C1 (amended): for a cell with current `xH > 0` and `z_re = -1`
(never yet flagged), at a positive current redshift, a radius step flags
the cell ionised (records its `z_re`) exactly when
`f_coll*zeta + f_coll_MINI*zeta_MINI` STRICTLY exceeds
`(1 - x_HII,xrays)*(1 + N_rec/nb)`; equality leaves the cell unflagged. -/
theorem C1_criterion_strict {n : ℕ} (M : Model n) (s : Box n) (ri : RInputs n) (c : Fin n)
    (hz : s.z_re c = -1) (hred : 0 < M.co.redshift) (_hxH : 0 < s.xH c) :
    ((radius_step M s ri).z_re c ≠ -1) ↔
      cell_fcoll M ri (mft_acg_of M s ri) c * M.co.ion_eff_factor +
          cell_fcoll_mini M ri (mft_mcg_of M s ri) c * M.co.ion_eff_factor_mini >
        (1 - cell_xrays M ri c) * (1 + cell_rec M ri c) := by
  rw [radius_step_zre]
  by_cases hc : cell_crit M ri (mft_acg_of M s ri) (mft_mcg_of M s ri) c = true
  · rw [if_pos hc]
    exact ⟨fun _ => (cell_crit_iff M ri _ _ c).mp hc,
      fun _ => zre_write_ne_neg_one M c hred⟩
  · rw [if_neg hc, hz]
    exact ⟨fun h => absurd rfl h, fun h => absurd ((cell_crit_iff M ri _ _ c).mpr h) hc⟩

/-- Claim C1 (witness): at a concrete cell strictly above threshold the
amended criterion applies and the cell is flagged. -/
theorem C1_witness : (radius_step exC3_M exC3_box exC3_ri).z_re 0 ≠ -1 :=
  (C1_criterion_strict exC3_M exC3_box exC3_ri 0 (by with_unfolding_all decide)
      (by with_unfolding_all decide) (by with_unfolding_all decide)).mpr
    (by with_unfolding_all decide)

/-- Claim C2: once a `xH` of a cell has been set to 0, every later radius step
of this snapshot leaves its `Gamma12` and `MFP` unchanged (the assignment
at line 991 is guarded by `xH > FRACT_FLOAT_ERR`); moreover a radius step
at which the cell does not cross the ionisation threshold never changes
its `Gamma12` or `MFP`, so they are assigned only on a crossing radius. -/
theorem C2_gamma_mfp_first_crossing {n : ℕ} (M : Model n) (rs : List (RInputs n)) (s : Box n)
    (c : Fin n) (hff : 0 ≤ M.co.fract_float_err) (ht : 0 ≤ M.co.tiny) (hxH : s.xH c = 0) :
    ((run M rs s).Gamma12 c = s.Gamma12 c ∧ (run M rs s).MFP c = s.MFP c) ∧
      (∀ ri, cell_crit M ri (mft_acg_of M s ri) (mft_mcg_of M s ri) c = false →
        (radius_step M s ri).Gamma12 c = s.Gamma12 c ∧
          (radius_step M s ri).MFP c = s.MFP c) := by
  constructor
  · induction rs generalizing s with
    | nil => exact ⟨rfl, rfl⟩
    | cons ri rs ih =>
      have hrun : run M (ri :: rs) s = run M rs (radius_step M s ri) := rfl
      rw [hrun]
      obtain ⟨p1, p2, p3⟩ := radius_step_pres M s ri c hff ht hxH
      obtain ⟨q2, q3⟩ := ih (radius_step M s ri) p1
      exact ⟨q2.trans p2, q3.trans p3⟩
  · exact fun ri h => radius_step_gmfp_not_crit M s ri c h

/-- Claim C2 (witness): a concrete already-ionised cell keeps its recorded
`Gamma12 = 3` and `MFP = 4` through a further radius step. -/
theorem C2_witness :
    (run exC1_M [exC1_ri] exC2_box).Gamma12 0 = exC2_box.Gamma12 0 ∧
      (run exC1_M [exC1_ri] exC2_box).MFP 0 = exC2_box.MFP 0 :=
  (C2_gamma_mfp_first_crossing exC1_M [exC1_ri] exC2_box 0 (by with_unfolding_all decide)
    (by with_unfolding_all decide) (by with_unfolding_all decide)).1

/-- Claim C3 (counterexample): under the sphere bubble algorithm, cell 1 is
painted to `xH = 0` by the sphere of its crossing neighbour (cell 0), yet
its `z_re` remains -1 in the output, because `find_ionised_regions` records
`z_re` only for the crossing cell itself (lines 1003-1008), never for the
painted cells. -/
theorem C3_counterexample :
    (run exC3_M [exC3_ri] exC3_box).xH 1 = 0 ∧
      (run exC3_M [exC3_ri] exC3_box).z_re 1 = -1 := by
  with_unfolding_all decide

/-- Claim C3 (amended): starting from the snapshot initialisation
`z_re = -1`, at a positive current redshift a cell ends the R-loop with
`z_re ≠ -1` exactly when the cell ITSELF satisfies the ionisation
criterion at some processed radius; cells whose `xH` is driven to 0 only
by sphere painting from a neighbour keep `z_re = -1`. -/
theorem C3_zre_iff_crossing {n : ℕ} (M : Model n) (rs : List (RInputs n)) (s : Box n)
    (c : Fin n) (hred : 0 < M.co.redshift) (hz : s.z_re c = -1) :
    ((run M rs s).z_re c ≠ -1) ↔
      ∃ ri ∈ rs, cell_crit M ri (mft_acg_of M s ri) (mft_mcg_of M s ri) c = true := by
  induction rs generalizing s with
  | nil =>
    rw [show run M [] s = s from rfl, hz]
    simp
  | cons ri rs ih =>
    have hrun : run M (ri :: rs) s = run M rs (radius_step M s ri) := rfl
    rw [hrun]
    by_cases hc : cell_crit M ri (mft_acg_of M s ri) (mft_mcg_of M s ri) c = true
    · constructor
      · intro _
        exact ⟨ri, List.mem_cons_self ri rs, hc⟩
      · intro _
        apply run_zre_ne M hred rs _ c
        rw [radius_step_zre, if_pos hc]
        exact zre_write_ne_neg_one M c hred
    · have hz2 : (radius_step M s ri).z_re c = -1 := by
        rw [radius_step_zre, if_neg hc]
        exact hz
      rw [ih _ hz2]
      constructor
      · rintro ⟨rj, hm, hcrit⟩
        refine ⟨rj, List.mem_cons_of_mem ri hm, ?_⟩
        rwa [mft_acg_of_radius_step, mft_mcg_of_radius_step] at hcrit
      · rintro ⟨rj, hm, hcrit⟩
        rcases List.mem_cons.mp hm with rfl | hm2
        · exact absurd hcrit hc
        · exact ⟨rj, hm2, by rwa [mft_acg_of_radius_step, mft_mcg_of_radius_step]⟩

/-- Claim C3 (witness): the crossing cell itself does get `z_re ≠ -1`. -/
theorem C3_witness : (run exC3_M [exC3_ri] exC3_box).z_re 0 ≠ -1 :=
  (C3_zre_iff_crossing exC3_M [exC3_ri] exC3_box 0 (by with_unfolding_all decide)
      (by with_unfolding_all decide)).mpr
    ⟨exC3_ri, List.mem_cons_self _ _, by with_unfolding_all decide⟩

/-- Claim C5: if the expected global ionised fraction is below
`HII_ROUND_ERR`, the R-loop is skipped and every cell receives
`xH = 1 - x_e(cell)` with TS coupling, else the uniform
`1 - xion_RECFAST(z)` (`ComputeIonizedBox` lines 1342-1345,
`set_fully_neutral_box` lines 510-537). -/
theorem C5_fully_neutral_early_out {n : ℕ} (M : Model n) (x_e : Fin n → ℚ) (xion : ℚ)
    (s0 : Box n) (rs : List (RInputs n))
    (h : exp_global_hii s0.mean_f_coll s0.mean_f_coll_MINI M.co.ion_eff_factor_gl
        M.co.ion_eff_factor_mini_gl < M.co.hii_round_err) :
    ∀ c, compute_ionized_box_xH M x_e xion s0 rs c =
      if M.flags.use_ts_fluct then 1 - x_e c else 1 - xion := by
  intro c
  unfold compute_ionized_box_xH
  rw [if_pos h]
  rfl

/-- Claim C5 (witness): with zero expected collapse and TS coupling off,
the single cell receives `1 - xion_RECFAST = 7/8`. -/
theorem C5_witness :
    compute_ionized_box_xH exC1_M (fun _ => 1 / 4) (1 / 8) exC5_box [] 0 = 7 / 8 :=
  (C5_fully_neutral_early_out exC1_M (fun _ => 1 / 4) (1 / 8) exC5_box []
      (by with_unfolding_all decide) 0).trans (by with_unfolding_all decide)

/-- Claim C10 (counterexample): in halo-field mode the final `mean_f_coll`
is not the raw box-average of the last `Fcoll` grid of that radius: with grid
mean `1/4` below the `f_limit_acg = 1/2` floor, the stored value is the
clamped `1/2` (`ComputeIonizedBox` lines 1412-1417 clamp the mean before
`find_ionised_regions` stores it). -/
theorem C10_counterexample :
    grid_mean exC10_ri.fcoll = 1 / 4 ∧
      (run exC10_M [exC10_ri] exC10_box).mean_f_coll = 1 / 2 ∧
      ((1 : ℚ) / 2) ≠ 1 / 4 := by
  with_unfolding_all decide

/-- Helper for Claim C10: in halo-field mode (`fix_mean = false`) the run
over a nonempty processed radius list ends with the means equal to the
clamped grid means of the last processed radius. -/
theorem run_mean_of_not_fix {n : ℕ} (M : Model n) (hfm : fix_mean M.flags = false)
    (rs : List (RInputs n)) :
    ∀ (t : Box n) (ri0 : RInputs n),
      t.mean_f_coll = clamped_mean_acg M (grid_mean ri0.fcoll) →
      t.mean_f_coll_MINI = clamped_mean_mcg M (raw_mean_mini M ri0) →
      ((run M rs t).mean_f_coll =
          clamped_mean_acg M (grid_mean (rs.getLastD ri0).fcoll) ∧
        (run M rs t).mean_f_coll_MINI =
          clamped_mean_mcg M (raw_mean_mini M (rs.getLastD ri0))) := by
  induction rs with
  | nil =>
    intro t ri0 h1 h2
    exact ⟨h1, h2⟩
  | cons ri rs ih =>
    intro t ri0 h1 h2
    have hrun : run M (ri :: rs) t = run M rs (radius_step M t ri) := rfl
    rw [hrun, List.getLastD_cons]
    exact ih (radius_step M t ri) ri (radius_step_mean_of_not_fix M t ri hfm).1
      (radius_step_mean_of_not_fix M t ri hfm).2

/-- Claim C10 (amended): in halo-field mode (`fix_mean = false`) the output
`mean_f_coll` / `mean_f_coll_MINI` are overwritten at every radius
iteration and end equal to the box-average of the `Fcoll` grid at the last
processed radius, clamped from below (by `f_limit_acg` under mass-dependent
zeta, else by `FRACT_FLOAT_ERR`), not the globally expected unconditional
mass-function value with which they entered the loop. -/
theorem C10_mean_overwritten {n : ℕ} (M : Model n) (ri : RInputs n) (rs : List (RInputs n))
    (s : Box n) (hfm : fix_mean M.flags = false) :
    (run M (ri :: rs) s).mean_f_coll =
        clamped_mean_acg M (grid_mean (rs.getLastD ri).fcoll) ∧
      (run M (ri :: rs) s).mean_f_coll_MINI =
        clamped_mean_mcg M (raw_mean_mini M (rs.getLastD ri)) := by
  have hrun : run M (ri :: rs) s = run M rs (radius_step M s ri) := rfl
  rw [hrun]
  exact run_mean_of_not_fix M hfm rs (radius_step M s ri) ri
    (radius_step_mean_of_not_fix M s ri hfm).1
    (radius_step_mean_of_not_fix M s ri hfm).2

/-- Claim C10 (witness): the concrete run stores the clamped grid mean. -/
theorem C10_witness :
    (run exC10_M [exC10_ri] exC10_box).mean_f_coll =
        clamped_mean_acg exC10_M (grid_mean (([] : List (RInputs 1)).getLastD exC10_ri).fcoll) ∧
      (run exC10_M [exC10_ri] exC10_box).mean_f_coll_MINI =
        clamped_mean_mcg exC10_M (raw_mean_mini exC10_M (([] : List (RInputs 1)).getLastD exC10_ri)) :=
  C10_mean_overwritten exC10_M exC10_ri [] exC10_box (by with_unfolding_all decide)

end IonModel

/-- Claim C4 (code bug): at `z = 8`, `z_prev = 9` (so `consts->dz = -1`),
unit recombination rate and `|dt/dz|`, fully neutral cell (`xH = 0`) and
previous cumulative count 5, `set_recombination_rates` stores `4 < 5`:
the cumulative recombination field DECREASES, because
`set_ionbox_constants` sets `dz = redshift - prev_redshift < 0`
(`IonisationBox.c` line 149) while the update multiplies by `dz`
(lines 1148-1156). -/
theorem C4_dnrec_decreases :
    IonModel.consts_dz 8 9 (51 / 50) = -1 ∧
      Recomb.dNrec_cell_update 1 1 (IonModel.consts_dz 8 9 (51 / 50)) 5 0 = 4 ∧
      Recomb.dNrec_cell_update 1 1 (IonModel.consts_dz 8 9 (51 / 50)) 5 0 < 5 := by
  with_unfolding_all decide

/-- Claim C6 (counterexample): with previous stored `Fcoll = 0`, current
term `N_now = -1` (clipped to `1e-40`) and previous term `N_prev = 1/2`,
the trapezoidal update stores `1e-40 - 1/2`, a negative value below the
claimed lower bound `1e-40`: the lower clamp of the stored value is
commented out in `calculate_fcoll_grid` (line 804). -/
theorem C6_counterexample :
    FcollGrid.fcoll_cell_update 0 (-1) (1 / 2) = 1 / 10 ^ 40 - 1 / 2 ∧
      FcollGrid.fcoll_cell_update 0 (-1) (1 / 2) < 1 / 10 ^ 40 ∧
      FcollGrid.fcoll_cell_update 0 (-1) (1 / 2) < 0 := by
  unfold FcollGrid.fcoll_cell_update FcollGrid.fcoll_term_clip
  norm_num

/-- Claim C6 (amended): the stored per-radius collapse fraction after the
trapezoidal update is clamped above at 1 (so it never exceeds 1), while
the clips to `[1e-40, 1]` apply only to the individual `N_now` / `N_prev`
terms; the stored value itself is not clamped below and can fall below
`1e-40` (even below 0). -/
theorem C6_fcoll_upper_clamp_only (prev_fcoll splined prev_splined : ℚ) :
    FcollGrid.fcoll_cell_update prev_fcoll splined prev_splined ≤ 1 := by
  show (if prev_fcoll + FcollGrid.fcoll_term_clip splined -
        FcollGrid.fcoll_term_clip prev_splined > 1 then (1 : ℚ)
      else prev_fcoll + FcollGrid.fcoll_term_clip splined -
        FcollGrid.fcoll_term_clip prev_splined) ≤ 1
  split_ifs with h
  · exact le_refl 1
  · exact le_of_not_lt h

/-- Claim C8 (counterexample): with `R_0 = 1`, `R_XLy_MAX = 4` and
`NSHELL = 2`, the factor of the source is `(4/1)^{1/2} = 2` (characterised by
`2 ^ 2 = 4/1`), so the radii are `1, 2`: the last radius is `2 ≠ 4`, and
the step ratio `2` differs from the claimed
`(R_XLyMax/R_0)^{1/(NSHELL-1)} = 4`. -/
theorem C8_counterexample :
    (2 : ℚ) ^ (2 : ℕ) = 4 / 1 ∧ SpinTemp.R_values 1 2 0 = 1 ∧
      SpinTemp.R_values 1 2 (2 - 1) = 2 ∧ SpinTemp.R_values 1 2 (2 - 1) ≠ 4 ∧
      SpinTemp.R_values 1 2 1 ≠ SpinTemp.R_values 1 2 0 * ((4 : ℚ) / 1) := by
  with_unfolding_all decide

theorem R_values_closed (R0 Rfac : ℚ) : ∀ k, SpinTemp.R_values R0 Rfac k = R0 * Rfac ^ k
  | 0 => by rw [SpinTemp.R_values, pow_zero, mul_one]
  | k + 1 => by
    rw [SpinTemp.R_values, R_values_closed R0 Rfac k, pow_succ, mul_assoc]

/-- Claim C8 (amended): the shell radii of `setup_z_edges` start at the
cell scale `R_0 = L_FACTOR * BOX_LEN / HII_DIM` and form a geometric
progression whose ratio satisfies
`Rfac ^ NSHELL = R_XLy_MAX / R_0` (exponent `1/NSHELL`, not
`1/(NSHELL-1)`, line 340); consequently the last radius satisfies
`R_{NSHELL-1} ^ NSHELL = R_0 * R_XLy_MAX ^ (NSHELL-1)` and falls short of
`R_XLy_MAX` whenever `R_XLy_MAX > R_0`. -/
theorem C8_shell_schedule (R0 Rfac RXLy : ℚ) (N : ℕ) (h0 : R0 ≠ 0) (hN : 1 ≤ N)
    (hf : Rfac ^ N = RXLy / R0) :
    (∀ k, SpinTemp.R_values R0 Rfac (k + 1) = SpinTemp.R_values R0 Rfac k * Rfac) ∧
      SpinTemp.R_values R0 Rfac (N - 1) ^ N = R0 * RXLy ^ (N - 1) := by
  obtain ⟨m, rfl⟩ := Nat.exists_eq_add_of_le hN
  refine ⟨fun k => rfl, ?_⟩
  rw [Nat.add_sub_cancel_left, R_values_closed]
  have h1 : (Rfac ^ m) ^ (1 + m) = RXLy ^ m / R0 ^ m := by
    rw [← pow_mul, mul_comm m (1 + m), pow_mul, hf, div_pow]
  rw [mul_pow, h1, pow_add, pow_one]
  field_simp
  ring

/-- Claim C8 (witness): the amended schedule law at
`R_0 = 1, Rfac = 2, R_XLy_MAX = 4, NSHELL = 2`. -/
theorem C8_witness : SpinTemp.R_values 1 2 (2 - 1) ^ 2 = 1 * 4 ^ (2 - 1) :=
  (C8_shell_schedule 1 2 4 2 (by norm_num) (by norm_num) (by norm_num)).2

namespace IonModel

/-- Claim C7 (counterexample): with `N_POISSON = 5` and deterministic mode
on, the halo-count multiplier of the cell-scale step is the constant 1,
not the expectation of the distribution,  `N_POISSON = 5`: the resulting partial
collapse fraction is `(1/2)/5 = 1/10`, one fifth of the value `1/2` the
expectation semantics of the claim would give
(`IonisationBox.c` lines 1028-1030: `N_halos_in_cell = 1`). -/
theorem C7_counterexample :
    exC7_M.co.n_poisson = 5 ∧ exC7_M.flags.no_rng = true ∧
      n_halos_cell exC7_M.flags.no_rng 37 = 1 ∧
      ((n_halos_cell exC7_M.flags.no_rng 37 : ℕ) : ℚ) ≠ exC7_M.co.n_poisson ∧
      (poisson_fcoll_pair exC7_M (1 / 2) 0 0 37).1 = 1 / 10 ∧
      ((1 : ℚ) / 10) ≠ 1 / 2 := by
  with_unfolding_all decide

/-- Claim C7 (amended): under `NO_RNG` the Poisson draw is replaced by the
constant 1 (independent of the drawn value), so when the expected halo
count is below `N_POISSON` the collapse fraction of the cell becomes
`ave_M_coll / (N_POISSON * pixel_mass * (1 + delta))` -- scaled down by
`1/N_POISSON` -- rather than keeping its expected value. -/
theorem C7_no_rng_multiplier_is_one {n : ℕ} (M : Model n) (fc fcm dens : ℚ) (draw : ℕ)
    (hrng : M.flags.no_rng = true) (hmini : M.flags.use_mini_halos = false)
    (hN : (fc + fcm) * M.co.pixel_mass * (1 + dens) / M.co.m_min < M.co.n_poisson)
    (hM : ¬((fc + fcm) * M.co.pixel_mass * (1 + dens) < M.co.m_min / 5))
    (hle : ¬((fc + fcm) * M.co.pixel_mass * (1 + dens) / M.co.n_poisson /
        (M.co.pixel_mass * (1 + dens)) > 1)) :
    (poisson_fcoll_pair M fc fcm dens draw).1 =
        (fc + fcm) * M.co.pixel_mass * (1 + dens) / M.co.n_poisson /
          (M.co.pixel_mass * (1 + dens)) ∧
      (poisson_fcoll_pair M fc fcm dens draw).2 = 0 := by
  simp only [poisson_fcoll_pair, n_halos_cell, hrng, hmini, if_true, Bool.false_eq_true,
    if_false, Nat.cast_one, one_mul]
  rw [if_pos hN, if_neg hM]
  refine ⟨?_, ?_⟩
  · rw [if_neg hle]
  · norm_num

/-- Claim C7 (witness): the amended statement at the concrete inputs of the
counterexample (`f_coll = 1/2`, unit pixel mass and minimum mass,
`N_POISSON = 5`, draw 3). -/
theorem C7_witness :
    (poisson_fcoll_pair exC7_M (1 / 2) 0 0 3).1 =
        (1 / 2 + 0) * exC7_M.co.pixel_mass * (1 + 0) / exC7_M.co.n_poisson /
          (exC7_M.co.pixel_mass * (1 + 0)) ∧
      (poisson_fcoll_pair exC7_M (1 / 2) 0 0 3).2 = 0 :=
  C7_no_rng_multiplier_is_one exC7_M (1 / 2) 0 0 3 (by with_unfolding_all decide)
    (by with_unfolding_all decide) (by with_unfolding_all decide)
    (by with_unfolding_all decide) (by with_unfolding_all decide)

end IonModel

namespace HaloGridder

theorem foldl_halo_all_cut {n : ℕ} (props : Halo n → HaloProps) (turn : Halo n → ℚ × ℚ × ℚ) :
    ∀ (halos : List (Halo n)) (acc : SumAcc n), (∀ h ∈ halos, h.mass = 0) →
      ((halos.foldl (halo_fold_step props turn) acc).g = acc.g ∧
        (halos.foldl (halo_fold_step props turn) acc).mta = acc.mta ∧
        (halos.foldl (halo_fold_step props turn) acc).mtm = acc.mtm ∧
        (halos.foldl (halo_fold_step props turn) acc).mtr = acc.mtr ∧
        (halos.foldl (halo_fold_step props turn) acc).n_cut = acc.n_cut + halos.length)
  | [], acc, _ => ⟨rfl, rfl, rfl, rfl, rfl⟩
  | h :: t, acc, hm => by
    have h0 : h.mass = 0 := hm h (List.mem_cons_self h t)
    have hstep : halo_fold_step props turn acc h = { acc with n_cut := acc.n_cut + 1 } := by
      unfold halo_fold_step
      rw [if_pos h0]
    rw [List.foldl_cons, hstep]
    obtain ⟨q1, q2, q3, q4, q5⟩ := foldl_halo_all_cut props turn t
      { acc with n_cut := acc.n_cut + 1 } (fun x hx => hm x (List.mem_cons_of_mem h hx))
    refine ⟨q1, q2, q3, q4, ?_⟩
    rw [q5]
    show acc.n_cut + 1 + t.length = acc.n_cut + (h :: t).length
    rw [List.length_cons]
    omega

theorem sum_halos_all_cut_proj {n : ℕ} (props : Halo n → HaloProps)
    (turn : Halo n → ℚ × ℚ × ℚ) (ma mm cv vol : ℚ) (halos : List (Halo n))
    (g0 : HaloGrids n) (hmass : ∀ h ∈ halos, h.mass = 0) :
    (sum_halos_onto_grid props turn ma mm cv vol halos g0).1 = divide_grids cv g0 ∧
      (sum_halos_onto_grid props turn ma mm cv vol halos g0).2.m_turn_acg = ma ∧
      (sum_halos_onto_grid props turn ma mm cv vol halos g0).2.m_turn_mcg = mm ∧
      (sum_halos_onto_grid props turn ma mm cv vol halos g0).2.m_turn_reion = 0 := by
  obtain ⟨hg, hmta, hmtm, hmtr, hcut⟩ :=
    foldl_halo_all_cut props turn halos (init_acc g0) hmass
  have htot : halos.length - (halos.foldl (halo_fold_step props turn) (init_acc g0)).n_cut
      = 0 := by
    rw [hcut]
    show halos.length - (0 + halos.length) = 0
    omega
  simp only [sum_halos_onto_grid, htot, hg]
  norm_num [init_acc]

/-- Claim C9: if every halo in the catalogue has zero mass (all cut by the
gridder), and the output buffers enter zeroed (the `halo_xray` buffer is
not reset by the init loop of `ComputeHaloBox`, so its zeroing comes from the caller
allocation), then every cell of every output grid of the halo-catalogue
path is zero and the recorded average ACG/MCG turnover masses equal the
no-feedback values (`sum_halos_onto_grid` lines 916-926), with zero
reionisation-feedback turnover. -/
theorem C9_zero_halos {n : ℕ} (props : Halo n → HaloProps) (turn : Halo n → ℚ × ℚ × ℚ)
    (ma mm cv vol : ℚ) (halos : List (Halo n)) (g_in : HaloGrids n)
    (hmass : ∀ h ∈ halos, h.mass = 0) (hxray : ∀ c, g_in.halo_xray c = 0) :
    (∀ c,
      (compute_halobox_halo_mode props turn ma mm cv vol halos g_in).1.halo_mass c = 0 ∧
      (compute_halobox_halo_mode props turn ma mm cv vol halos g_in).1.halo_stars c = 0 ∧
      (compute_halobox_halo_mode props turn ma mm cv vol halos g_in).1.halo_stars_mini c = 0 ∧
      (compute_halobox_halo_mode props turn ma mm cv vol halos g_in).1.n_ion c = 0 ∧
      (compute_halobox_halo_mode props turn ma mm cv vol halos g_in).1.halo_sfr c = 0 ∧
      (compute_halobox_halo_mode props turn ma mm cv vol halos g_in).1.halo_sfr_mini c = 0 ∧
      (compute_halobox_halo_mode props turn ma mm cv vol halos g_in).1.whalo_sfr c = 0 ∧
      (compute_halobox_halo_mode props turn ma mm cv vol halos g_in).1.halo_xray c = 0 ∧
      (compute_halobox_halo_mode props turn ma mm cv vol halos g_in).1.count c = 0) ∧
      (compute_halobox_halo_mode props turn ma mm cv vol halos g_in).2.m_turn_acg = ma ∧
      (compute_halobox_halo_mode props turn ma mm cv vol halos g_in).2.m_turn_mcg = mm ∧
      (compute_halobox_halo_mode props turn ma mm cv vol halos g_in).2.m_turn_reion = 0 := by
  obtain ⟨h1, h2, h3, h4⟩ := sum_halos_all_cut_proj props turn ma mm cv vol halos
    (compute_halobox_init g_in) hmass
  have hmode : compute_halobox_halo_mode props turn ma mm cv vol halos g_in =
      sum_halos_onto_grid props turn ma mm cv vol halos (compute_halobox_init g_in) := rfl
  rw [hmode]
  refine ⟨?_, h2, h3, h4⟩
  intro c
  rw [h1]
  simp [divide_grids, compute_halobox_init, hxray c]

/-- Claim C9 (witness): the two-halo zero-mass catalogue on one cell. -/
theorem C9_witness :
    (compute_halobox_halo_mode exC9_props exC9_turn 21 22 5 40 exC9_halos exC9_grids).1.halo_mass 0 = 0 ∧
      (compute_halobox_halo_mode exC9_props exC9_turn 21 22 5 40 exC9_halos exC9_grids).1.halo_xray 0 = 0 ∧
      (compute_halobox_halo_mode exC9_props exC9_turn 21 22 5 40 exC9_halos exC9_grids).2.m_turn_acg = 21 ∧
      (compute_halobox_halo_mode exC9_props exC9_turn 21 22 5 40 exC9_halos exC9_grids).2.m_turn_mcg = 22 ∧
      (compute_halobox_halo_mode exC9_props exC9_turn 21 22 5 40 exC9_halos exC9_grids).2.m_turn_reion = 0 := by
  obtain ⟨hg, h2, h3, h4⟩ := C9_zero_halos exC9_props exC9_turn 21 22 5 40 exC9_halos
    exC9_grids (by with_unfolding_all decide) (fun _ => rfl)
  exact ⟨(hg 0).1, (hg 0).2.2.2.2.2.2.2.1, h2, h3, h4⟩

end HaloGridder
